import Mathlib

set_option maxHeartbeats 1000000

/-
  Verification development for the confirm pipeline of the payment router
  (crates/router/src/core/payments/operations/payment_confirm.rs) and the
  payment-link flow (crates/router/src/core/payment_link.rs).

  The Rust code is shallowly embedded: pure computations become Lean
  functions, fallible computations return Except, and the durable store is
  threaded explicitly as a value.  Helper functions that live in other
  crates of the repository (payment helpers, api models, storage traits)
  are either embedded from their call-site semantics or modelled from the
  specification; each such definition carries a doc comment saying so.
-/

namespace Hyperswitch

/-- Intent lifecycle status (storage_enums::IntentStatus). -/
inductive IntentStatus
  | Succeeded
  | Failed
  | Cancelled
  | Processing
  | RequiresCustomerAction
  | RequiresMerchantAction
  | RequiresPaymentMethod
  | RequiresConfirmation
  | RequiresCapture
  | PartiallyCaptured
deriving DecidableEq

/-- Attempt lifecycle status (storage_enums::AttemptStatus); only the
variants the confirm pipeline touches are carried. -/
inductive AttemptStatus
  | Started
  | Pending
  | Failure
  | Unresolved
  | Charged
deriving DecidableEq

/-- Fraud-review suggestion attached to the confirm call
(api_models::enums::FrmSuggestion). -/
inductive FrmSuggestion
  | FrmCancelTransaction
  | FrmManualReview
deriving DecidableEq

/-- Session-cache (redis) errors: the absent-key case is distinguished from
every other failure. -/
inductive RedisError
  | NotFound
  | ConnectionFailed
deriving DecidableEq

/-- Durable-store errors surfaced by the storage contract. -/
inductive StorageError
  | NotFound
  | DatabaseFailed
deriving DecidableEq

/-- The error taxonomy of the router (errors::ApiErrorResponse), restricted
to the constructors the embedded code can raise. -/
inductive ApiErrorResponse
  | PaymentNotFound
  | InvalidState (action : String)
  | MissingRequiredField (field_name : String)
  | InvalidRequestData (message : String)
  | InvalidDataValue (field_name : String)
  | InternalServerError
deriving DecidableEq

/-- Payment-method types that matter to the surcharge session flow. -/
inductive PaymentMethodType
  | GooglePay
  | ApplePay
  | Paypal
  | Klarna
deriving DecidableEq

/-- Payment-method data attached to the confirm request, collapsed to the
variants that decide the session-token surcharge gate. -/
inductive PaymentMethodData
  | Card
  | BankTransfer
  | GooglePayWallet
  | ApplePayWallet
  | PaypalSdkWallet
deriving DecidableEq

/-- Modelled from the spec: api_models::payments::PaymentMethodData::
get_payment_method_type_if_session_token_type is not under src.  The spec
calls the surcharge check a cross-check against values cached from a prior
session-token call, and the source error message speaks of the session
token flow, so the helper yields a payment-method type exactly for the
session-token wallet variants and nothing for the rest (cards, transfers). -/
def get_payment_method_type_if_session_token_type :
    PaymentMethodData → Option PaymentMethodType
  | .GooglePayWallet => some .GooglePay
  | .ApplePayWallet => some .ApplePay
  | .PaypalSdkWallet => some .Paypal
  | _ => none

/-- Surcharge declared in the confirm request
(api_models::payments::RequestSurchargeDetails). -/
structure RequestSurchargeDetails where
  surcharge_amount : Int
  tax_amount : Option Int
deriving DecidableEq

/-- Fixed or rate surcharge (api_models::payment_methods::Surcharge). -/
inductive Surcharge
  | Fixed (amount : Int)
  | Rate (percentage : Int)
deriving DecidableEq

/-- Resolved surcharge handed to persistence
(api_models::payment_methods::SurchargeDetailsResponse). -/
structure SurchargeDetailsResponse where
  surcharge : Surcharge
  tax_on_surcharge : Option Int
  surcharge_amount : Int
  tax_on_surcharge_amount : Int
  final_amount : Int
deriving DecidableEq

/-- Surcharge figures cached in the session cache during an earlier
session-token call. -/
structure SurchargeDetails where
  surcharge_amount : Int
  tax_on_surcharge_amount : Int
deriving DecidableEq

/-- Modelled from the spec: RequestSurchargeDetails::is_surcharge_zero is
not under src; the spec reads a cache miss is only acceptable if the
request declares a zero surcharge, so the predicate holds when both the
surcharge amount and the (defaulted) tax amount are zero. -/
def RequestSurchargeDetails.is_surcharge_zero (rsd : RequestSurchargeDetails) : Bool :=
  rsd.surcharge_amount = 0 && rsd.tax_amount.getD 0 = 0

/-- Modelled from the spec: SurchargeDetails::is_request_surcharge_matching
is not under src; the spec reads a cache hit must match the request
figures, so the predicate compares the surcharge amount and the
(defaulted) tax amount against the cached record. -/
def SurchargeDetails.is_request_surcharge_matching
    (sd : SurchargeDetails) (rsd : RequestSurchargeDetails) : Bool :=
  rsd.surcharge_amount = sd.surcharge_amount
    && rsd.tax_amount.getD 0 = sd.tax_on_surcharge_amount

/-- Modelled from the spec: RequestSurchargeDetails::
get_surcharge_details_object is not under src; per the spec the final
(surcharge-inclusive) amount is the attempt amount plus the surcharge plus
the tax on the surcharge. -/
def RequestSurchargeDetails.get_surcharge_details_object
    (rsd : RequestSurchargeDetails) (original_amount : Int) : SurchargeDetailsResponse :=
  { surcharge := .Fixed rsd.surcharge_amount
    tax_on_surcharge := none
    surcharge_amount := rsd.surcharge_amount
    tax_on_surcharge_amount := rsd.tax_amount.getD 0
    final_amount := original_amount + rsd.surcharge_amount + rsd.tax_amount.getD 0 }

/-- Billing or shipping address record. -/
structure Address where
  address_id : String
deriving DecidableEq

/-- One execution attempt of an intent (storage::PaymentAttempt), with the
fields the confirm pipeline reads or writes. -/
structure PaymentAttempt where
  attempt_id : String
  payment_id : String
  merchant_id : String
  status : AttemptStatus
  amount : Int
  currency : Option String
  surcharge_amount : Option Int
  tax_amount : Option Int
  payment_token : Option String
  payment_method : Option String
  payment_method_type : Option String
  payment_experience : Option String
  capture_method : Option String
  browser_info : Option String
  error_code : Option String
  error_message : Option String
  amount_capturable : Option Int
deriving DecidableEq

/-- Aggregate root of one purchase (storage::PaymentIntent), with the
fields the confirm pipeline reads or writes. -/
structure PaymentIntent where
  payment_id : String
  merchant_id : String
  status : IntentStatus
  active_attempt_id : String
  amount : Int
  currency : Option String
  customer_id : Option String
  shipping_address_id : Option String
  billing_address_id : Option String
  return_url : Option String
  setup_future_usage : Option Bool
  order_details : Option String
  metadata : Option String
deriving DecidableEq

/-- Customer row. -/
structure Customer where
  customer_id : String
  merchant_id : String
deriving DecidableEq

/-- Customer mutation payload (storage::CustomerUpdate). -/
structure CustomerUpdate where
  connector_customer : Option String
deriving DecidableEq

/-- Merchant context for the call. -/
structure MerchantAccount where
  merchant_id : String
  return_url : Option String
deriving DecidableEq

/-- Token / payment-method / mandate resolution produced by the mandate
helper (helpers::get_token_pm_type_mandate_details, outside src); only the
components the embedded code consumes are carried. -/
structure MandateDetails where
  token : Option String
  payment_method : Option String
  payment_method_type : Option String
deriving DecidableEq

/-- Inbound confirm request (api::PaymentsRequest), with the fields the
embedded code consumes. -/
structure PaymentsRequest where
  return_url : Option String
  shipping : Option Address
  billing : Option Address
  merchant_connector_details : Option String
  surcharge_details : Option RequestSurchargeDetails
  payment_method_data : Option PaymentMethodData
  payment_method : Option String
  payment_method_type : Option String
  payment_experience : Option String
  capture_method : Option String
  browser_info : Option String
  setup_future_usage : Option Bool
  metadata : Option String
  order_details : Option String
  confirm : Option Bool
deriving DecidableEq

/-- The durable store, threaded as an explicit value: one table per record
kind, plus the config rows used for connector-credential overrides. -/
structure Store where
  intents : List PaymentIntent
  attempts : List PaymentAttempt
  addresses : List Address
  configs : List String
  customers : List Customer
deriving DecidableEq

/-- The session cache consumed by the surcharge validator: a point lookup
keyed by payment-method type and attempt identifier, with an explicit
not-found outcome distinct from other failures. -/
def SessionCache : Type :=
  PaymentMethodType → String → Except RedisError SurchargeDetails

/-- Wrapper keeping the source call-site name for the session-cache lookup
(crate::core::utils::get_individual_surcharge_detail_from_redis, outside
src). -/
def get_individual_surcharge_detail_from_redis
    (cache : SessionCache) (payment_method_type : PaymentMethodType)
    (attempt_id : String) : Except RedisError SurchargeDetails :=
  cache payment_method_type attempt_id

/-- The message of the surcharge-mismatch error raised by the validator
(payment_confirm.rs lines 810-812, apostrophe spelled out). -/
def surchargeMismatchMessage : String :=
  "surcharge_details sent in session token flow does not match with the one sent in confirm request"

/-- PaymentConfirm::validate_request_surcharge_details_with_session_surcharge_details
(payment_confirm.rs lines 797-860): cross-checks a request-declared
surcharge against the attempt-stored or cache-stored surcharge. -/
def validate_request_surcharge_details_with_session_surcharge_details
    (cache : SessionCache) (payment_attempt : PaymentAttempt)
    (request : PaymentsRequest) : Except ApiErrorResponse Unit :=
  match request.surcharge_details, request.payment_method_data with
  | some request_surcharge_details, some payment_method_data =>
    match get_payment_method_type_if_session_token_type payment_method_data with
    | some payment_method_type =>
      match payment_attempt.surcharge_amount with
      | some attempt_surcharge_amount =>
        -- surcharge sent in payment create: the request must repeat it
        if request_surcharge_details.surcharge_amount ≠ attempt_surcharge_amount
            ∨ request_surcharge_details.tax_amount ≠ payment_attempt.tax_amount then
          .error (.InvalidRequestData surchargeMismatchMessage)
        else
          .ok ()
      | none =>
        -- not sent in payment create: compare against the session cache
        match get_individual_surcharge_detail_from_redis cache payment_method_type
            payment_attempt.attempt_id with
        | .ok surcharge_details =>
          if ¬ (surcharge_details.is_request_surcharge_matching request_surcharge_details) then
            .error (.InvalidRequestData surchargeMismatchMessage)
          else
            .ok ()
        | .error RedisError.NotFound =>
          if ¬ request_surcharge_details.is_surcharge_zero then
            .error (.InvalidRequestData surchargeMismatchMessage)
          else
            .ok ()
        | .error _ => .error .InternalServerError
    | none => .ok ()
  | some _, none => .error (.MissingRequiredField "payment_method_data")
  | _, _ => .ok ()

/-- PaymentConfirm::get_surcharge_details_from_payment_request_or_payment_attempt
(payment_confirm.rs lines 862-882): the request-declared surcharge wins,
else the attempt-stored surcharge is lifted, else there is none. -/
def get_surcharge_details_from_payment_request_or_payment_attempt
    (payment_request : PaymentsRequest) (payment_attempt : PaymentAttempt) :
    Option SurchargeDetailsResponse :=
  (payment_request.surcharge_details.map (fun surcharge_details =>
      surcharge_details.get_surcharge_details_object payment_attempt.amount)).or
    (payment_attempt.surcharge_amount.map (fun surcharge_amount =>
      { surcharge := .Fixed surcharge_amount
        tax_on_surcharge := none
        surcharge_amount := surcharge_amount
        tax_on_surcharge_amount := payment_attempt.tax_amount.getD 0
        final_amount := payment_attempt.amount + surcharge_amount
          + payment_attempt.tax_amount.getD 0 }))

/-- Store lookup of the intent by payment and merchant identifier
(find_payment_intent_by_payment_id_merchant_id of the storage contract). -/
def find_payment_intent_by_payment_id_merchant_id
    (store : Store) (payment_id merchant_id : String) : Option PaymentIntent :=
  store.intents.find? (fun i => i.payment_id == payment_id && i.merchant_id == merchant_id)

/-- Store lookup of the attempt by payment, merchant and attempt identifier
(find_payment_attempt_by_payment_id_merchant_id_attempt_id of the storage
contract). -/
def find_payment_attempt_by_payment_id_merchant_id_attempt_id
    (store : Store) (payment_id merchant_id attempt_id : String) : Option PaymentAttempt :=
  store.attempts.find? (fun a =>
    a.payment_id == payment_id && a.merchant_id == merchant_id && a.attempt_id == attempt_id)

/-- The statuses in which a confirm call is refused (payment_confirm.rs
lines 114-120). -/
def notAllowedConfirmStatuses : List IntentStatus :=
  [.Cancelled, .Succeeded, .Processing, .RequiresCapture, .RequiresMerchantAction]

/-- Modelled from the spec: helpers::validate_payment_status_against_not_allowed_statuses
is not under src; the spec says a status in the disallowed list makes the
operation fail with the InvalidState-class error before anything is
written. -/
def validate_payment_status_against_not_allowed_statuses
    (intent_status : IntentStatus) (not_allowed : List IntentStatus)
    (action : String) : Except ApiErrorResponse Unit :=
  if intent_status ∈ not_allowed then .error (.InvalidState action) else .ok ()

/-- The awaiting-action statuses for which get_trackers reuses the fetched
attempt unmodified (payment_confirm.rs lines 239-242). -/
def isAwaitingAction : IntentStatus → Bool
  | .RequiresCustomerAction => true
  | .RequiresMerchantAction => true
  | .RequiresPaymentMethod => true
  | .RequiresConfirmation => true
  | _ => false

/-- Outcomes of the helper calls whose bodies live outside src
(mandate resolution, customer-access check, client-secret check, card-data
check, payment-method-or-token check, mandatory-customer-id check); the
embedding consumes them at the exact source call sites. -/
structure HelperOutcomes where
  mandate_details : Except ApiErrorResponse MandateDetails
  customer_access : Except ApiErrorResponse Unit
  client_secret_auth : Except ApiErrorResponse Unit
  card_data_valid : Except ApiErrorResponse Unit
  pm_or_token_given : Except ApiErrorResponse Unit
  customer_id_mandatory : Except ApiErrorResponse Unit

/-- Stage 1 of get_trackers (payment_confirm.rs lines 67-137): the intent
fetch joined with the mandate resolution (first error in join order wins),
then the customer-access check, the status precondition and the
client-secret check.  Everything here is a read: the store is untouched. -/
def confirmStage1 (store : Store) (payment_id : String) (merchant : MerchantAccount)
    (h : HelperOutcomes) : Except ApiErrorResponse (PaymentIntent × MandateDetails) :=
  match find_payment_intent_by_payment_id_merchant_id store payment_id merchant.merchant_id with
  | none => .error .PaymentNotFound
  | some payment_intent =>
    match h.mandate_details with
    | .error e => .error e
    | .ok mandate_details =>
      match h.customer_access with
      | .error e => .error e
      | .ok _ =>
        match validate_payment_status_against_not_allowed_statuses payment_intent.status
            notAllowedConfirmStatuses "confirm" with
        | .error e => .error e
        | .ok _ =>
          match h.client_secret_auth with
          | .error e => .error e
          | .ok _ => .ok (payment_intent, mandate_details)

/-- Modelled from the spec: helpers::create_or_find_address_for_payment_by_request
is not under src; per the spec an address is created on first reference
(request payload present) and otherwise looked up by the stored
identifier. -/
def create_or_find_address_for_payment_by_request
    (store : Store) (request_address : Option Address) (address_id : Option String) :
    Option Address × Store :=
  match request_address with
  | some a => (some a, { store with addresses := a :: store.addresses })
  | none =>
    match address_id with
    | some aid => (store.addresses.find? (fun a => a.address_id == aid), store)
    | none => (none, store)

/-- Modelled from the spec: helpers::insert_merchant_connector_creds_to_config
is not under src; a caller-supplied connector-credential override is
persisted under its identifier. -/
def insert_merchant_connector_creds_to_config
    (store : Store) (merchant_connector_details : Option String) : Store :=
  match merchant_connector_details with
  | some creds => { store with configs := creds :: store.configs }
  | none => store

/-- The write-bearing siblings of the stage-2 wave (shipping address,
billing address, connector-credential config); they run to completion even
when the attempt fetch of the same wave fails, so the embedding applies
them before the attempt result is inspected. -/
def stage2AddressWrites (store : Store) (request : PaymentsRequest)
    (payment_intent : PaymentIntent) : Option Address × Option Address × Store :=
  let shipping := create_or_find_address_for_payment_by_request store request.shipping
    payment_intent.shipping_address_id
  let billing := create_or_find_address_for_payment_by_request shipping.2 request.billing
    payment_intent.billing_address_id
  (shipping.1, billing.1, insert_merchant_connector_creds_to_config billing.2
    request.merchant_connector_details)

/-- Decision of the attempt versioning engine. -/
inductive AttemptType
  | SameOld
  | New
deriving DecidableEq

/-- Modelled from the spec: helpers::get_attempt_type is not under src; per
the spec the engine decides whether a retry reuses the existing attempt or
must create a new attempt generation because the payment method differs
materially from the failed attempt. -/
def get_attempt_type (payment_attempt : PaymentAttempt) (request : PaymentsRequest) :
    AttemptType :=
  if request.payment_method.isSome && request.payment_method != payment_attempt.payment_method
  then .New
  else .SameOld

/-- Modelled from the spec: AttemptType::modify_payment_intent_and_payment_attempt
is not under src; per the spec a new attempt generation is inserted and
linked as the active attempt of the intent while the previous attempt is
retained for history, never deleted. -/
def modify_payment_intent_and_payment_attempt
    (attempt_type : AttemptType) (payment_intent : PaymentIntent)
    (payment_attempt : PaymentAttempt) (store : Store) :
    (PaymentIntent × PaymentAttempt) × Store :=
  match attempt_type with
  | .SameOld => ((payment_intent, payment_attempt), store)
  | .New =>
    let new_attempt : PaymentAttempt := { payment_attempt with
      attempt_id := payment_intent.payment_id ++ "_" ++ toString (store.attempts.length + 1)
      status := .Started }
    let new_intent : PaymentIntent := { payment_intent with
      active_attempt_id := new_attempt.attempt_id }
    ((new_intent, new_attempt),
     { store with
        attempts := new_attempt :: store.attempts
        intents := store.intents.map (fun i =>
          if i.payment_id == new_intent.payment_id && i.merchant_id == new_intent.merchant_id
          then new_intent else i) })

/-- The attempt versioning engine: compute the attempt type and apply its
decision (payment_confirm.rs lines 260-275). -/
def applyAttemptVersioning (payment_intent : PaymentIntent) (payment_attempt : PaymentAttempt)
    (request : PaymentsRequest) (store : Store) : (PaymentIntent × PaymentAttempt) × Store :=
  modify_payment_intent_and_payment_attempt (get_attempt_type payment_attempt request)
    payment_intent payment_attempt store

/-- Stage 2 of get_trackers (payment_confirm.rs lines 139-279): the
concurrent wave of attempt fetch, address resolutions and config insert,
followed by the status dispatch that either reuses the fetched attempt
(awaiting-action statuses) or runs the attempt versioning engine. -/
def confirmStage2 (store : Store) (request : PaymentsRequest) (merchant : MerchantAccount)
    (payment_intent : PaymentIntent) :
    Except ApiErrorResponse (PaymentAttempt × Option Address × Option Address × PaymentIntent)
      × Store :=
  let writes := stage2AddressWrites store request payment_intent
  let shipping_address := writes.1
  let billing_address := writes.2.1
  let store2 := writes.2.2
  match find_payment_attempt_by_payment_id_merchant_id_attempt_id store2
      payment_intent.payment_id merchant.merchant_id payment_intent.active_attempt_id with
  | none => (.error .PaymentNotFound, store2)
  | some payment_attempt =>
    if isAwaitingAction payment_intent.status then
      (.ok (payment_attempt, shipping_address, billing_address, payment_intent), store2)
    else
      let versioned := applyAttemptVersioning payment_intent payment_attempt request store2
      (.ok (versioned.1.2, shipping_address, billing_address, versioned.1.1), versioned.2)

/-- In-memory reconciliation of request fields onto the fetched aggregate
(payment_confirm.rs lines 281-384): order details, setup-future-usage,
browser info, token, payment method fields, currency and amount pinning,
address identifiers, return URL and metadata, interleaved with the
validation helpers at their source positions. -/
def confirmReconcile (request : PaymentsRequest) (mandate_details : MandateDetails)
    (payment_intent : PaymentIntent) (payment_attempt : PaymentAttempt)
    (shipping_address billing_address : Option Address) (h : HelperOutcomes) :
    Except ApiErrorResponse (PaymentIntent × PaymentAttempt × String × Int × Option String) :=
  let payment_intent := { payment_intent with
    order_details := request.order_details.or payment_intent.order_details
    setup_future_usage := request.setup_future_usage.or payment_intent.setup_future_usage }
  let browser_info := request.browser_info.or payment_attempt.browser_info
  match h.card_data_valid with
  | .error e => .error e
  | .ok _ =>
    let token := mandate_details.token.or payment_attempt.payment_token
    match h.pm_or_token_given with
    | .error e => .error e
    | .ok _ =>
      let payment_attempt := { payment_attempt with
        payment_method := mandate_details.payment_method.or payment_attempt.payment_method
        browser_info := browser_info
        payment_method_type :=
          mandate_details.payment_method_type.or payment_attempt.payment_method_type
        payment_experience := request.payment_experience.or payment_attempt.payment_experience
        capture_method := request.capture_method.or payment_attempt.capture_method }
      match payment_attempt.currency with
      | none => .error (.MissingRequiredField "currency")
      | some currency =>
        let amount := payment_attempt.amount
        match h.customer_id_mandatory with
        | .error e => .error e
        | .ok _ =>
          let payment_intent := { payment_intent with
            shipping_address_id := shipping_address.map (fun a => a.address_id)
            billing_address_id := billing_address.map (fun a => a.address_id)
            return_url := request.return_url.or payment_intent.return_url
            metadata := request.metadata.or payment_intent.metadata }
          .ok (payment_intent, payment_attempt, currency, amount, token)

/-- Outcome of a fraud check attached to the aggregate (frm_message):
status plus optional reason. -/
structure FraudCheck where
  frm_status : String
  frm_reason : Option String
deriving DecidableEq

/-- The transient unit-of-work aggregate threading through the pipeline
(payments::PaymentData), with the components the embedded code consumes. -/
structure PaymentData where
  payment_intent : PaymentIntent
  payment_attempt : PaymentAttempt
  currency : String
  amount : Int
  token : Option String
  confirm : Option Bool
  payment_method_data : Option PaymentMethodData
  surcharge_details : Option SurchargeDetailsResponse
  frm_message : Option FraudCheck
deriving DecidableEq

/-- PaymentConfirm::get_trackers (payment_confirm.rs lines 44-435): the
full fetch / versioning / reconciliation / surcharge-validation pipeline,
returning the assembled PaymentData together with the store as left by the
stage-2 writes. -/
def getTrackers (store : Store) (cache : SessionCache) (payment_id : String)
    (request : PaymentsRequest) (merchant : MerchantAccount) (h : HelperOutcomes) :
    Except ApiErrorResponse PaymentData × Store :=
  match confirmStage1 store payment_id merchant h with
  | .error e => (.error e, store)
  | .ok (payment_intent, mandate_details) =>
    match confirmStage2 store request merchant payment_intent with
    | (.error e, store2) => (.error e, store2)
    | (.ok (payment_attempt, shipping_address, billing_address, payment_intent2), store2) =>
      match confirmReconcile request mandate_details payment_intent2 payment_attempt
          shipping_address billing_address h with
      | .error e => (.error e, store2)
      | .ok (payment_intent3, payment_attempt3, currency, amount, token) =>
        match validate_request_surcharge_details_with_session_surcharge_details cache
            payment_attempt3 request with
        | .error e => (.error e, store2)
        | .ok _ =>
          (.ok { payment_intent := payment_intent3
                 payment_attempt := payment_attempt3
                 currency := currency
                 amount := amount
                 token := token
                 confirm := request.confirm
                 payment_method_data := request.payment_method_data
                 surcharge_details :=
                   get_surcharge_details_from_payment_request_or_payment_attempt request
                     payment_attempt3
                 frm_message := none }, store2)

/-- The status transition computed by update_trackers (payment_confirm.rs
lines 539-560): intent status, attempt status and the error code/message
pair, selected by the fraud-review suggestion. -/
def transition (frm_suggestion : Option FrmSuggestion) (frm_message : Option FraudCheck) :
    IntentStatus × AttemptStatus × (Option (Option String) × Option (Option String)) :=
  match frm_suggestion with
  | some .FrmCancelTransaction =>
    (.Failed, .Failure,
      match frm_message with
      | none => (none, none)
      | some fraud_check =>
        (some (some fraud_check.frm_status), some fraud_check.frm_reason))
  | some .FrmManualReview => (.RequiresMerchantAction, .Unresolved, (none, none))
  | none => (.Processing, .Pending, (none, none))

/-- The capturable/authorized amount persisted by update_trackers
(payment_confirm.rs lines 607-611): the final amount of the surcharge
resolution when one exists, else the plain attempt amount. -/
def authorized_amount (payment_data : PaymentData) : Int :=
  (payment_data.surcharge_details.map (fun surcharge_details =>
    surcharge_details.final_amount)).getD payment_data.payment_attempt.amount

/-- The attempt mutation committed by update_trackers
(storage::PaymentAttemptUpdate::ConfirmUpdate, payment_confirm.rs lines
628-647), with the fields the embedding carries; an outer none on the
error fields means keep the stored value. -/
structure PaymentAttemptConfirmUpdate where
  amount : Int
  currency : String
  status : AttemptStatus
  payment_method : Option String
  browser_info : Option String
  payment_token : Option String
  payment_method_type : Option String
  payment_experience : Option String
  error_code : Option (Option String)
  error_message : Option (Option String)
  amount_capturable : Option Int
deriving DecidableEq

/-- Assembly of the ConfirmUpdate record from the aggregate and the
transition outcome (payment_confirm.rs lines 628-647). -/
def mkConfirmAttemptUpdate (payment_data : PaymentData) (attempt_status : AttemptStatus)
    (error_code error_message : Option (Option String)) : PaymentAttemptConfirmUpdate :=
  { amount := payment_data.amount
    currency := payment_data.currency
    status := attempt_status
    payment_method := payment_data.payment_attempt.payment_method
    browser_info := payment_data.payment_attempt.browser_info
    payment_token := payment_data.token
    payment_method_type := payment_data.payment_attempt.payment_method_type
    payment_experience := payment_data.payment_attempt.payment_experience
    error_code := error_code
    error_message := error_message
    amount_capturable := some (authorized_amount payment_data) }

/-- The intent mutation committed by update_trackers
(storage::PaymentIntentUpdate::Update, payment_confirm.rs lines 674-692),
with the fields the embedding carries. -/
structure PaymentIntentConfirmUpdate where
  amount : Int
  currency : String
  status : IntentStatus
  setup_future_usage : Option Bool
  customer_id : Option String
  shipping_address_id : Option String
  billing_address_id : Option String
  return_url : Option String
  order_details : Option String
  metadata : Option String
deriving DecidableEq

/-- Assembly of the intent update record from the aggregate and the
transition outcome (payment_confirm.rs lines 674-692). -/
def mkConfirmIntentUpdate (payment_data : PaymentData) (intent_status : IntentStatus)
    (customer : Option Customer) : PaymentIntentConfirmUpdate :=
  { amount := payment_data.amount
    currency := payment_data.currency
    status := intent_status
    setup_future_usage := payment_data.payment_intent.setup_future_usage
    customer_id := customer.map (fun c => c.customer_id)
    shipping_address_id := payment_data.payment_intent.shipping_address_id
    billing_address_id := payment_data.payment_intent.billing_address_id
    return_url := payment_data.payment_intent.return_url
    order_details := payment_data.payment_intent.order_details
    metadata := payment_data.payment_intent.metadata }

/-- Application of a ConfirmUpdate to a stored attempt row. -/
def applyAttemptUpdate (row : PaymentAttempt) (upd : PaymentAttemptConfirmUpdate) :
    PaymentAttempt :=
  { row with
    amount := upd.amount
    currency := some upd.currency
    status := upd.status
    payment_method := upd.payment_method
    browser_info := upd.browser_info
    payment_token := upd.payment_token
    payment_method_type := upd.payment_method_type
    payment_experience := upd.payment_experience
    error_code := upd.error_code.getD row.error_code
    error_message := upd.error_message.getD row.error_message
    amount_capturable := upd.amount_capturable.or row.amount_capturable }

/-- Application of an intent update to a stored intent row. -/
def applyIntentUpdate (row : PaymentIntent) (upd : PaymentIntentConfirmUpdate) :
    PaymentIntent :=
  { row with
    amount := upd.amount
    currency := some upd.currency
    status := upd.status
    setup_future_usage := upd.setup_future_usage
    customer_id := upd.customer_id.or row.customer_id
    shipping_address_id := upd.shipping_address_id
    billing_address_id := upd.billing_address_id
    return_url := upd.return_url
    order_details := upd.order_details
    metadata := upd.metadata }

/-- Modelled from the spec: the conditional attempt update of the storage
contract (update_payment_attempt_with_attempt_id, not under src); it fails
with the store NotFound error when the targeted row no longer matches, and
otherwise yields the updated row together with the new attempts table. -/
def update_payment_attempt_with_attempt_id
    (store : Store) (payment_attempt : PaymentAttempt) (upd : PaymentAttemptConfirmUpdate) :
    Except StorageError (PaymentAttempt × List PaymentAttempt) :=
  match store.attempts.find? (fun a =>
      a.attempt_id == payment_attempt.attempt_id
        && a.payment_id == payment_attempt.payment_id) with
  | none => .error .NotFound
  | some row =>
    let updated := applyAttemptUpdate row upd
    .ok (updated, store.attempts.map (fun a =>
      if a.attempt_id == payment_attempt.attempt_id
          && a.payment_id == payment_attempt.payment_id
      then updated else a))

/-- Modelled from the spec: the conditional intent update of the storage
contract (update_payment_intent, not under src); same conditional
discipline as the attempt update. -/
def update_payment_intent
    (store : Store) (payment_intent : PaymentIntent) (upd : PaymentIntentConfirmUpdate) :
    Except StorageError (PaymentIntent × List PaymentIntent) :=
  match store.intents.find? (fun i =>
      i.payment_id == payment_intent.payment_id
        && i.merchant_id == payment_intent.merchant_id) with
  | none => .error .NotFound
  | some row =>
    let updated := applyIntentUpdate row upd
    .ok (updated, store.intents.map (fun i =>
      if i.payment_id == payment_intent.payment_id
          && i.merchant_id == payment_intent.merchant_id
      then updated else i))

/-- StorageErrorExt::to_not_found_response (outside src): a store NotFound
becomes the given response error, any other store failure becomes the
internal-error response. -/
def to_not_found_response {α : Type} (r : Except StorageError α)
    (not_found : ApiErrorResponse) : Except ApiErrorResponse α :=
  match r with
  | .ok a => .ok a
  | .error .NotFound => .error not_found
  | .error _ => .error .InternalServerError

/-- The deterministic rendering of tokio try_join on three tasks: all
successes or the first failure in join order. -/
def tryJoin3 {ε α β γ : Type} (a : Except ε α) (b : Except ε β) (c : Except ε γ) :
    Except ε (α × β × γ) :=
  match a, b, c with
  | .ok x, .ok y, .ok z => .ok (x, y, z)
  | .error e, _, _ => .error e
  | .ok _, .error e, _ => .error e
  | .ok _, .ok _, .error e => .error e

/-- The attempt-update component of the persistence wave (payment_confirm.rs
lines 624-654). -/
def attemptUpdateResult (store : Store) (payment_data : PaymentData)
    (attempt_status : AttemptStatus) (error_code error_message : Option (Option String)) :
    Except ApiErrorResponse (PaymentAttempt × List PaymentAttempt) :=
  to_not_found_response
    (update_payment_attempt_with_attempt_id store payment_data.payment_attempt
      (mkConfirmAttemptUpdate payment_data attempt_status error_code error_message))
    .PaymentNotFound

/-- The intent-update component of the persistence wave (payment_confirm.rs
lines 670-699). -/
def intentUpdateResult (store : Store) (payment_data : PaymentData)
    (intent_status : IntentStatus) (customer : Option Customer) :
    Except ApiErrorResponse (PaymentIntent × List PaymentIntent) :=
  to_not_found_response
    (update_payment_intent store payment_data.payment_intent
      (mkConfirmIntentUpdate payment_data intent_status customer))
    .PaymentNotFound

/-- The customer-update component of the persistence wave (payment_confirm.rs
lines 701-729): the real update runs only when both a mutation payload and
a customer are present (any failure is reported as the internal error),
and otherwise a no-op task that always succeeds is substituted. -/
def customerUpdateResult (store : Store) (updated_customer : Option CustomerUpdate)
    (customer : Option Customer) : Except ApiErrorResponse Unit :=
  match updated_customer, customer with
  | some _, some c =>
    match store.customers.find? (fun x =>
        x.customer_id == c.customer_id && x.merchant_id == c.merchant_id) with
    | some _ => .ok ()
    | none => .error .InternalServerError
  | _, _ => .ok ()

/-- PaymentConfirm::update_trackers (payment_confirm.rs lines 518-741):
compute the transition, build the two update records, run the three
persistence tasks and join them; sub-writes that succeeded are applied to
the store even when a sibling fails (the wave discards loser results
without rolling anything back). -/
def update_trackers (store : Store) (payment_data : PaymentData)
    (customer : Option Customer) (updated_customer : Option CustomerUpdate)
    (frm_suggestion : Option FrmSuggestion) : Except ApiErrorResponse PaymentData × Store :=
  match transition frm_suggestion payment_data.frm_message with
  | (intent_status, attempt_status, (error_code, error_message)) =>
    let attempt_res := attemptUpdateResult store payment_data attempt_status
      error_code error_message
    let intent_res := intentUpdateResult store payment_data intent_status customer
    let customer_res := customerUpdateResult store updated_customer customer
    let store2 : Store := { store with
      attempts := match attempt_res with
        | .ok (_, table) => table
        | .error _ => store.attempts
      intents := match intent_res with
        | .ok (_, table) => table
        | .error _ => store.intents }
    match tryJoin3 intent_res attempt_res customer_res with
    | .error e => (.error e, store2)
    | .ok ((intent_row, _), (attempt_row, _), _) =>
      (.ok { payment_data with payment_intent := intent_row, payment_attempt := attempt_row },
       store2)

/-- Return-URL resolution of the payment-link flow (payment_link.rs lines
87-95): the value stored on the intent at payment-create time wins, else
the merchant default, else the missing-field error. -/
def payment_link_resolve_return_url (intent_return_url merchant_return_url : Option String) :
    Except ApiErrorResponse String :=
  match intent_return_url with
  | some payment_create_return_url => .ok payment_create_return_url
  | none =>
    match merchant_return_url with
    | some u => .ok u
    | none => .error (.MissingRequiredField "return_url")

/-- One line item of the payment link (api_models::payments::
OrderDetailsWithAmount). -/
structure OrderDetailsWithAmount where
  product_name : String
  quantity : Nat
  amount : Int
  product_img_link : Option String
deriving DecidableEq

/-- A raw order-details value as stored on the intent, embedded by the
outcome of its parse (parse_value lives outside src): some parsed record
or a parse failure. -/
structure SecretValue where
  parsed : Option OrderDetailsWithAmount
deriving DecidableEq

/-- parse_value at type OrderDetailsWithAmount with the error context
attached at the call site (payment_link.rs lines 216-223). -/
def parse_value (v : SecretValue) : Except ApiErrorResponse OrderDetailsWithAmount :=
  match v.parsed with
  | some o => .ok o
  | none => .error (.InvalidDataValue "OrderDetailsWithAmount")

/-- The default product image constant (common_utils DEFAULT_PRODUCT_IMG,
outside src; the concrete URL is immaterial). -/
def DEFAULT_PRODUCT_IMG : String := "default_product_img"

/-- The collect step of validate_order_details: parse every element,
stopping at the first failure. -/
def collectParsed : List SecretValue → Except ApiErrorResponse (List OrderDetailsWithAmount)
  | [] => .ok []
  | v :: vs =>
    match parse_value v with
    | .error e => .error e
    | .ok o =>
      match collectParsed vs with
      | .error e => .error e
      | .ok os => .ok (o :: os)

/-- The defaulting step of validate_order_details (payment_link.rs lines
228-235): set the product image to the default exactly when absent. -/
def set_default_product_img (o : OrderDetailsWithAmount) : OrderDetailsWithAmount :=
  if o.product_img_link.isNone then
    { o with product_img_link := some DEFAULT_PRODUCT_IMG }
  else o

/-- payment_link::validate_order_details (payment_link.rs lines 206-237). -/
def validate_order_details (order_details : Option (List SecretValue)) :
    Except ApiErrorResponse (Option (List OrderDetailsWithAmount)) :=
  match order_details with
  | none => .ok none
  | some l =>
    match collectParsed l with
    | .error e => .error e
    | .ok parsed => .ok (some (parsed.map set_default_product_img))

/- Concrete fixtures used by the closed witness and counterexample
statements. -/

def wMerchant : MerchantAccount :=
  { merchant_id := "m1", return_url := some "https://merchant.example/return" }

def wAttempt : PaymentAttempt :=
  { attempt_id := "pay_1_1", payment_id := "pay_1", merchant_id := "m1"
    status := .Pending, amount := 1000, currency := some "USD"
    surcharge_amount := none, tax_amount := none, payment_token := none
    payment_method := none, payment_method_type := none, payment_experience := none
    capture_method := none, browser_info := none, error_code := none
    error_message := none, amount_capturable := none }

def wIntent : PaymentIntent :=
  { payment_id := "pay_1", merchant_id := "m1", status := .RequiresConfirmation
    active_attempt_id := "pay_1_1", amount := 1000, currency := some "USD"
    customer_id := some "cust_1", shipping_address_id := none, billing_address_id := none
    return_url := none, setup_future_usage := none, order_details := none, metadata := none }

def wStore : Store :=
  { intents := [wIntent], attempts := [wAttempt], addresses := [], configs := []
    customers := [] }

def wRequest : PaymentsRequest :=
  { return_url := none, shipping := none, billing := none, merchant_connector_details := none
    surcharge_details := none, payment_method_data := some .Card, payment_method := some "card"
    payment_method_type := none, payment_experience := none, capture_method := none
    browser_info := none, setup_future_usage := none, metadata := none, order_details := none
    confirm := some true }

def wMandateDetails : MandateDetails :=
  { token := none, payment_method := some "card", payment_method_type := none }

def wOutcomes : HelperOutcomes :=
  { mandate_details := .ok wMandateDetails
    customer_access := .ok (), client_secret_auth := .ok (), card_data_valid := .ok ()
    pm_or_token_given := .ok (), customer_id_mandatory := .ok () }

def wCacheMiss : SessionCache := fun _ _ => .error .NotFound

def wCacheHit : SessionCache := fun _ _ => .ok { surcharge_amount := 7, tax_on_surcharge_amount := 0 }

def wPaymentData : PaymentData :=
  { payment_intent := wIntent, payment_attempt := wAttempt, currency := "USD", amount := 1000
    token := none, confirm := some true, payment_method_data := some .Card
    surcharge_details := none, frm_message := none }

def wEmptyStore : Store :=
  { intents := [], attempts := [], addresses := [], configs := [], customers := [] }

def cxAttemptStored : PaymentAttempt :=
  { wAttempt with surcharge_amount := some 10, tax_amount := some 2 }

def cxRequestMismatch : PaymentsRequest :=
  { wRequest with
    surcharge_details := some { surcharge_amount := 5, tax_amount := none },
    payment_method_data := some .Card }

def cxRequestNonzero : PaymentsRequest :=
  { wRequest with
    surcharge_details := some { surcharge_amount := 7, tax_amount := none },
    payment_method_data := some .Card }

/- ------------------------------------------------------------------ -/
/- Claim theorems -/
/- ------------------------------------------------------------------ -/

/-- Claim C2: the status-transition computation in update_trackers is a
pure total function of the outcome signal: the fraud-cancel signal yields
intent status Failed and attempt status Failure with the error code and
message copied from the fraud-check outcome when one is present, the
fraud-manual-review signal yields RequiresMerchantAction and Unresolved
with no error fields, and any other signal (including none) yields
Processing and Pending with no error fields. -/
theorem c2_transition_engine (s : Option FrmSuggestion) (m : Option FraudCheck) :
    (s = some .FrmCancelTransaction →
      (transition s m).1 = .Failed ∧ (transition s m).2.1 = .Failure
      ∧ (m = none → (transition s m).2.2 = (none, none))
      ∧ (∀ fc, m = some fc →
          (transition s m).2.2 = (some (some fc.frm_status), some fc.frm_reason)))
    ∧ (s = some .FrmManualReview →
      transition s m = (.RequiresMerchantAction, .Unresolved, (none, none)))
    ∧ (s ≠ some .FrmCancelTransaction → s ≠ some .FrmManualReview →
      transition s m = (.Processing, .Pending, (none, none))) := by
  refine ⟨?_, ?_, ?_⟩
  · rintro rfl
    refine ⟨rfl, rfl, ?_, ?_⟩
    · intro hm
      subst hm
      rfl
    · intro fc hm
      subst hm
      rfl
  · rintro rfl
    rfl
  · intro h1 h2
    match s with
    | none => rfl
    | some .FrmCancelTransaction => exact absurd rfl h1
    | some .FrmManualReview => exact absurd rfl h2

theorem c2_transition_engine_witness :
    (transition (some .FrmCancelTransaction)
        (some { frm_status := "fraud", frm_reason := some "stolen_card" })).2.2
      = (some (some "fraud"), some (some "stolen_card")) :=
  ((c2_transition_engine (some .FrmCancelTransaction)
      (some { frm_status := "fraud", frm_reason := some "stolen_card" })).1 rfl).2.2.2
    { frm_status := "fraud", frm_reason := some "stolen_card" } rfl

/-- Claim C5: the surcharge details used for persistence are the
request-declared surcharge when present, else the attempt-stored surcharge
when present, else none; and the capturable amount written by the attempt
update equals the surcharge resolution final amount (attempt amount plus
surcharge plus tax on surcharge) when a resolution exists, else the plain
attempt amount. -/
theorem c5_surcharge_resolution (request : PaymentsRequest) (payment_attempt : PaymentAttempt)
    (payment_data : PaymentData) (attempt_status : AttemptStatus)
    (error_code error_message : Option (Option String)) :
    (∀ rsd, request.surcharge_details = some rsd →
      get_surcharge_details_from_payment_request_or_payment_attempt request payment_attempt
        = some (rsd.get_surcharge_details_object payment_attempt.amount)
      ∧ (rsd.get_surcharge_details_object payment_attempt.amount).final_amount
          = payment_attempt.amount + rsd.surcharge_amount + rsd.tax_amount.getD 0)
    ∧ (request.surcharge_details = none → ∀ s, payment_attempt.surcharge_amount = some s →
      ∃ sd, get_surcharge_details_from_payment_request_or_payment_attempt request payment_attempt
          = some sd
        ∧ sd.surcharge_amount = s
        ∧ sd.final_amount = payment_attempt.amount + s + payment_attempt.tax_amount.getD 0)
    ∧ (request.surcharge_details = none → payment_attempt.surcharge_amount = none →
      get_surcharge_details_from_payment_request_or_payment_attempt request payment_attempt
        = none)
    ∧ ((mkConfirmAttemptUpdate payment_data attempt_status error_code
          error_message).amount_capturable
        = some (match payment_data.surcharge_details with
                | some sd => sd.final_amount
                | none => payment_data.payment_attempt.amount)) := by
  refine ⟨?_, ?_, ?_, ?_⟩
  · intro rsd h
    constructor
    · simp [get_surcharge_details_from_payment_request_or_payment_attempt, h]
    · rfl
  · intro h s hs
    refine ⟨{
        surcharge := .Fixed s,
        tax_on_surcharge := none,
        surcharge_amount := s,
        tax_on_surcharge_amount := payment_attempt.tax_amount.getD 0,
        final_amount := payment_attempt.amount + s + payment_attempt.tax_amount.getD 0 },
      ?_, rfl, rfl⟩
    simp [get_surcharge_details_from_payment_request_or_payment_attempt, h, hs]
  · intro h hs
    simp [get_surcharge_details_from_payment_request_or_payment_attempt, h, hs]
  · simp only [mkConfirmAttemptUpdate, authorized_amount]
    cases payment_data.surcharge_details <;> rfl

theorem c5_surcharge_resolution_witness :
    get_surcharge_details_from_payment_request_or_payment_attempt
        { wRequest with surcharge_details := some { surcharge_amount := 100, tax_amount := some 10 } }
        wAttempt
      = some (RequestSurchargeDetails.get_surcharge_details_object
          { surcharge_amount := 100, tax_amount := some 10 } 1000) :=
  ((c5_surcharge_resolution
      { wRequest with surcharge_details := some { surcharge_amount := 100, tax_amount := some 10 } }
      wAttempt wPaymentData .Pending none none).1
    { surcharge_amount := 100, tax_amount := some 10 } rfl).1

/-- Claim C9: a confirm request that declares surcharge details but
supplies no payment-method data fails the surcharge validation with the
missing-required-field error naming payment_method_data; a request that
declares no surcharge details always passes it. -/
theorem c9_surcharge_requires_pm_data (cache : SessionCache)
    (payment_attempt : PaymentAttempt) (request : PaymentsRequest) :
    (request.payment_method_data = none → ∀ rsd, request.surcharge_details = some rsd →
      validate_request_surcharge_details_with_session_surcharge_details cache payment_attempt
          request
        = .error (.MissingRequiredField "payment_method_data"))
    ∧ (request.surcharge_details = none →
      validate_request_surcharge_details_with_session_surcharge_details cache payment_attempt
          request
        = .ok ()) := by
  constructor
  · intro h1 rsd h2
    simp [validate_request_surcharge_details_with_session_surcharge_details, h1, h2]
  · intro h1
    cases h2 : request.payment_method_data <;>
      simp [validate_request_surcharge_details_with_session_surcharge_details, h1, h2]

theorem c9_surcharge_requires_pm_data_witness :
    validate_request_surcharge_details_with_session_surcharge_details wCacheMiss wAttempt
        { wRequest with
          payment_method_data := none,
          surcharge_details := some { surcharge_amount := 5, tax_amount := none } }
      = .error (.MissingRequiredField "payment_method_data") :=
  (c9_surcharge_requires_pm_data wCacheMiss wAttempt
      { wRequest with
        payment_method_data := none,
        surcharge_details := some { surcharge_amount := 5, tax_amount := none } }).1
    rfl { surcharge_amount := 5, tax_amount := none } rfl

/-- Claim C3 counterexample: a confirm request declaring a surcharge of 5
with card payment-method data supplied, against an attempt storing a
surcharge of 10, passes the validator (the check is skipped because card
data is not of a session-token type), so validation succeeding is not
equivalent to the figures matching. -/
theorem c3_counterexample_non_session_token_pm :
    validate_request_surcharge_details_with_session_surcharge_details wCacheMiss
        cxAttemptStored cxRequestMismatch = .ok ()
    ∧ cxRequestMismatch.surcharge_details
        = some { surcharge_amount := 5, tax_amount := none }
    ∧ cxRequestMismatch.payment_method_data = some .Card
    ∧ cxAttemptStored.surcharge_amount = some 10
    ∧ (5 : Int) ≠ 10 := by
  exact ⟨rfl, rfl, rfl, rfl, by decide⟩

/-- Claim C3 amended: for every confirm request that declares surcharge
details and supplies payment-method data of a session-token type, if the
fetched attempt carries a stored surcharge amount then the surcharge
validation succeeds if and only if the request surcharge amount equals the
stored one and the request tax amount equals the stored tax amount, and on
inequality it fails with the invalid-request-data error.  (For
payment-method data that is not of a session-token type the validator
skips the check and succeeds.) -/
theorem c3_amended_stored_surcharge_equality (cache : SessionCache)
    (payment_attempt : PaymentAttempt) (request : PaymentsRequest)
    (rsd : RequestSurchargeDetails) (pmd : PaymentMethodData) (pmt : PaymentMethodType)
    (a : Int)
    (h1 : request.surcharge_details = some rsd)
    (h2 : request.payment_method_data = some pmd)
    (h3 : get_payment_method_type_if_session_token_type pmd = some pmt)
    (h4 : payment_attempt.surcharge_amount = some a) :
    ((validate_request_surcharge_details_with_session_surcharge_details cache payment_attempt
          request = .ok ())
      ↔ (rsd.surcharge_amount = a ∧ rsd.tax_amount = payment_attempt.tax_amount))
    ∧ ((rsd.surcharge_amount ≠ a ∨ rsd.tax_amount ≠ payment_attempt.tax_amount) →
      validate_request_surcharge_details_with_session_surcharge_details cache payment_attempt
          request
        = .error (.InvalidRequestData surchargeMismatchMessage)) := by
  have hv : validate_request_surcharge_details_with_session_surcharge_details cache
        payment_attempt request
      = if rsd.surcharge_amount ≠ a ∨ rsd.tax_amount ≠ payment_attempt.tax_amount then
          .error (.InvalidRequestData surchargeMismatchMessage)
        else .ok () := by
    simp only [validate_request_surcharge_details_with_session_surcharge_details,
      h1, h2, h3, h4]
  refine ⟨?_, ?_⟩
  · by_cases hc : rsd.surcharge_amount ≠ a ∨ rsd.tax_amount ≠ payment_attempt.tax_amount
    · rw [hv, if_pos hc]
      constructor
      · intro h
        exact Except.noConfusion h
      · intro h
        rcases hc with hc | hc
        · exact absurd h.1 hc
        · exact absurd h.2 hc
    · rw [hv, if_neg hc]
      push_neg at hc
      exact iff_of_true rfl ⟨hc.1, hc.2⟩
  · intro hc
    rw [hv, if_pos hc]

theorem c3_amended_stored_surcharge_equality_witness :
    validate_request_surcharge_details_with_session_surcharge_details wCacheMiss
        cxAttemptStored
        { wRequest with
          surcharge_details := some { surcharge_amount := 10, tax_amount := some 2 },
          payment_method_data := some .GooglePayWallet }
      = .ok () :=
  ((c3_amended_stored_surcharge_equality wCacheMiss cxAttemptStored
      { wRequest with
        surcharge_details := some { surcharge_amount := 10, tax_amount := some 2 },
        payment_method_data := some .GooglePayWallet }
      { surcharge_amount := 10, tax_amount := some 2 } .GooglePayWallet .GooglePay 10
      rfl rfl rfl rfl).1).mpr ⟨rfl, rfl⟩

/-- Claim C4 counterexample: a confirm request declaring a nonzero
surcharge with card payment-method data supplied, against an attempt with
no stored surcharge and an empty session cache, passes the validator (the
cache is never consulted because card data is not of a session-token
type), whereas the claim requires the invalid-request-data failure. -/
theorem c4_counterexample_non_session_token_pm :
    validate_request_surcharge_details_with_session_surcharge_details wCacheMiss wAttempt
        cxRequestNonzero = .ok ()
    ∧ wAttempt.surcharge_amount = none
    ∧ cxRequestNonzero.surcharge_details
        = some { surcharge_amount := 7, tax_amount := none }
    ∧ cxRequestNonzero.payment_method_data = some .Card
    ∧ RequestSurchargeDetails.is_surcharge_zero { surcharge_amount := 7, tax_amount := none }
        = false
    ∧ (∀ pmt aid, wCacheMiss pmt aid = .error .NotFound) := by
  exact ⟨rfl, rfl, rfl, rfl, by decide, fun _ _ => rfl⟩

/-- Claim C4 amended: for every confirm request that declares surcharge
details and supplies payment-method data of a session-token type, if the
attempt carries no stored surcharge amount then the validator consults the
session cache: on a not-found miss validation succeeds if and only if the
request declares a zero surcharge and otherwise fails with the
invalid-request-data error; on a hit validation succeeds if and only if
the cached figures match the request figures and otherwise fails the same
way; any other cache error fails with the internal error.  (For
payment-method data that is not of a session-token type the validator
skips the check and succeeds.) -/
theorem c4_amended_cached_surcharge_check (cache : SessionCache)
    (payment_attempt : PaymentAttempt) (request : PaymentsRequest)
    (rsd : RequestSurchargeDetails) (pmd : PaymentMethodData) (pmt : PaymentMethodType)
    (h1 : request.surcharge_details = some rsd)
    (h2 : request.payment_method_data = some pmd)
    (h3 : get_payment_method_type_if_session_token_type pmd = some pmt)
    (h4 : payment_attempt.surcharge_amount = none) :
    (cache pmt payment_attempt.attempt_id = .error .NotFound →
      ((validate_request_surcharge_details_with_session_surcharge_details cache
            payment_attempt request = .ok ())
        ↔ rsd.is_surcharge_zero = true)
      ∧ (rsd.is_surcharge_zero = false →
        validate_request_surcharge_details_with_session_surcharge_details cache
            payment_attempt request
          = .error (.InvalidRequestData surchargeMismatchMessage)))
    ∧ (∀ sd, cache pmt payment_attempt.attempt_id = .ok sd →
      ((validate_request_surcharge_details_with_session_surcharge_details cache
            payment_attempt request = .ok ())
        ↔ sd.is_request_surcharge_matching rsd = true)
      ∧ (sd.is_request_surcharge_matching rsd = false →
        validate_request_surcharge_details_with_session_surcharge_details cache
            payment_attempt request
          = .error (.InvalidRequestData surchargeMismatchMessage)))
    ∧ (∀ e, cache pmt payment_attempt.attempt_id = .error e → e ≠ RedisError.NotFound →
      validate_request_surcharge_details_with_session_surcharge_details cache
          payment_attempt request
        = .error .InternalServerError) := by
  refine ⟨?_, ?_, ?_⟩
  · intro hcache
    have hv : validate_request_surcharge_details_with_session_surcharge_details cache
          payment_attempt request
        = if ¬ rsd.is_surcharge_zero then
            .error (.InvalidRequestData surchargeMismatchMessage)
          else .ok () := by
      simp only [validate_request_surcharge_details_with_session_surcharge_details,
        h1, h2, h3, h4, get_individual_surcharge_detail_from_redis, hcache]
    rw [hv]
    cases hz : rsd.is_surcharge_zero <;> simp [hz]
  · intro sd hcache
    have hv : validate_request_surcharge_details_with_session_surcharge_details cache
          payment_attempt request
        = if ¬ sd.is_request_surcharge_matching rsd then
            .error (.InvalidRequestData surchargeMismatchMessage)
          else .ok () := by
      simp only [validate_request_surcharge_details_with_session_surcharge_details,
        h1, h2, h3, h4, get_individual_surcharge_detail_from_redis, hcache]
    rw [hv]
    cases hm : sd.is_request_surcharge_matching rsd <;> simp [hm]
  · intro e hcache hne
    cases e with
    | NotFound => exact absurd rfl hne
    | ConnectionFailed =>
      simp [validate_request_surcharge_details_with_session_surcharge_details,
        h1, h2, h3, h4, get_individual_surcharge_detail_from_redis, hcache]

theorem c4_amended_cached_surcharge_check_witness :
    validate_request_surcharge_details_with_session_surcharge_details wCacheHit wAttempt
        { wRequest with
          surcharge_details := some { surcharge_amount := 7, tax_amount := none },
          payment_method_data := some .GooglePayWallet }
      = .ok () :=
  (((c4_amended_cached_surcharge_check wCacheHit wAttempt
      { wRequest with
        surcharge_details := some { surcharge_amount := 7, tax_amount := none },
        payment_method_data := some .GooglePayWallet }
      { surcharge_amount := 7, tax_amount := none } .GooglePayWallet .GooglePay
      rfl rfl rfl rfl).2.1
      { surcharge_amount := 7, tax_on_surcharge_amount := 0 } rfl).1).mpr (by decide)

def cxBlockedIntent : PaymentIntent := { wIntent with status := .Processing }

def cxBlockedStore : Store := { wStore with intents := [cxBlockedIntent] }

/-- Claim C1: for every confirm call whose fetched intent has status in
the set Cancelled, Succeeded, Processing, RequiresCapture,
RequiresMerchantAction, get_trackers fails with the InvalidState-class
error and returns the store exactly as it found it: no address creation,
no attempt modification and no attempt, intent or customer update has been
performed before that failure is raised.  (The mandate resolution and the
customer-access check run before the status check; both are reads and are
assumed to succeed here.) -/
theorem c1_blocked_status_no_writes (store : Store) (cache : SessionCache)
    (payment_id : String) (request : PaymentsRequest) (merchant : MerchantAccount)
    (h : HelperOutcomes) (payment_intent : PaymentIntent) (mandate_details : MandateDetails)
    (hfind : find_payment_intent_by_payment_id_merchant_id store payment_id
        merchant.merchant_id = some payment_intent)
    (hstatus : payment_intent.status ∈ notAllowedConfirmStatuses)
    (hmd : h.mandate_details = .ok mandate_details)
    (hca : h.customer_access = .ok ()) :
    getTrackers store cache payment_id request merchant h
      = (.error (.InvalidState "confirm"), store) := by
  have hs1 : confirmStage1 store payment_id merchant h
      = .error (.InvalidState "confirm") := by
    simp only [confirmStage1, hfind, hmd, hca,
      validate_payment_status_against_not_allowed_statuses, if_pos hstatus]
  simp only [getTrackers, hs1]

theorem c1_blocked_status_no_writes_witness :
    getTrackers cxBlockedStore wCacheMiss "pay_1" wRequest wMerchant wOutcomes
      = (.error (.InvalidState "confirm"), cxBlockedStore) :=
  c1_blocked_status_no_writes cxBlockedStore wCacheMiss "pay_1" wRequest wMerchant
    wOutcomes cxBlockedIntent wMandateDetails rfl (by decide) rfl rfl

theorem create_or_find_address_preserves_attempts (store : Store) (ra : Option Address)
    (aid : Option String) :
    ((create_or_find_address_for_payment_by_request store ra aid).2).attempts
      = store.attempts := by
  cases ra with
  | some a => rfl
  | none => cases aid <;> rfl

theorem insert_creds_preserves_attempts (store : Store) (mcd : Option String) :
    (insert_merchant_connector_creds_to_config store mcd).attempts = store.attempts := by
  cases mcd <;> rfl

theorem stage2AddressWrites_preserves_attempts (store : Store) (request : PaymentsRequest)
    (payment_intent : PaymentIntent) :
    ((stage2AddressWrites store request payment_intent).2.2).attempts = store.attempts := by
  simp only [stage2AddressWrites]
  rw [insert_creds_preserves_attempts, create_or_find_address_preserves_attempts,
    create_or_find_address_preserves_attempts]

theorem applyAttemptVersioning_retains_attempt (payment_intent : PaymentIntent)
    (payment_attempt : PaymentAttempt) (request : PaymentsRequest) (store : Store)
    (a : PaymentAttempt) (ha : a ∈ store.attempts) :
    a ∈ ((applyAttemptVersioning payment_intent payment_attempt request store).2).attempts := by
  cases hat : get_attempt_type payment_attempt request <;>
    simp [applyAttemptVersioning, modify_payment_intent_and_payment_attempt, hat, ha]

/-- Claim C6: for every confirm call whose fetched intent is in an
awaiting-action status, the stage-2 dispatch of get_trackers reuses the
fetched attempt record unchanged (same attempt identifier, same intent,
no attempt-versioning modification, attempts table untouched); for every
other intent status it computes an attempt type and applies its decision
through the versioning engine, and the prior attempt is retained in the
store rather than deleted. -/
theorem c6_attempt_versioning_dispatch (store : Store) (request : PaymentsRequest)
    (merchant : MerchantAccount) (payment_intent : PaymentIntent)
    (payment_attempt : PaymentAttempt)
    (hfound : find_payment_attempt_by_payment_id_merchant_id_attempt_id store
        payment_intent.payment_id merchant.merchant_id payment_intent.active_attempt_id
      = some payment_attempt) :
    (isAwaitingAction payment_intent.status = true →
      confirmStage2 store request merchant payment_intent
        = (.ok (payment_attempt, (stage2AddressWrites store request payment_intent).1,
              (stage2AddressWrites store request payment_intent).2.1, payment_intent),
            (stage2AddressWrites store request payment_intent).2.2)
      ∧ ((confirmStage2 store request merchant payment_intent).2).attempts = store.attempts)
    ∧ (isAwaitingAction payment_intent.status = false →
      confirmStage2 store request merchant payment_intent
        = (.ok ((applyAttemptVersioning payment_intent payment_attempt request
              (stage2AddressWrites store request payment_intent).2.2).1.2,
            (stage2AddressWrites store request payment_intent).1,
            (stage2AddressWrites store request payment_intent).2.1,
            (applyAttemptVersioning payment_intent payment_attempt request
              (stage2AddressWrites store request payment_intent).2.2).1.1),
           (applyAttemptVersioning payment_intent payment_attempt request
              (stage2AddressWrites store request payment_intent).2.2).2)
      ∧ payment_attempt
          ∈ ((confirmStage2 store request merchant payment_intent).2).attempts) := by
  have hfound2 : find_payment_attempt_by_payment_id_merchant_id_attempt_id
      (stage2AddressWrites store request payment_intent).2.2
      payment_intent.payment_id merchant.merchant_id payment_intent.active_attempt_id
    = some payment_attempt := by
    unfold find_payment_attempt_by_payment_id_merchant_id_attempt_id at hfound ⊢
    rw [stage2AddressWrites_preserves_attempts]
    exact hfound
  have hmem : payment_attempt ∈ store.attempts := by
    unfold find_payment_attempt_by_payment_id_merchant_id_attempt_id at hfound
    exact List.mem_of_find?_eq_some hfound
  have hmem2 : payment_attempt
      ∈ ((stage2AddressWrites store request payment_intent).2.2).attempts := by
    rw [stage2AddressWrites_preserves_attempts]
    exact hmem
  constructor
  · intro hA
    have heq : confirmStage2 store request merchant payment_intent
        = (.ok (payment_attempt, (stage2AddressWrites store request payment_intent).1,
              (stage2AddressWrites store request payment_intent).2.1, payment_intent),
            (stage2AddressWrites store request payment_intent).2.2) := by
      simp only [confirmStage2, hfound2, hA]
      simp
    refine ⟨heq, ?_⟩
    rw [heq]
    exact stage2AddressWrites_preserves_attempts store request payment_intent
  · intro hA
    have heq : confirmStage2 store request merchant payment_intent
        = (.ok ((applyAttemptVersioning payment_intent payment_attempt request
              (stage2AddressWrites store request payment_intent).2.2).1.2,
            (stage2AddressWrites store request payment_intent).1,
            (stage2AddressWrites store request payment_intent).2.1,
            (applyAttemptVersioning payment_intent payment_attempt request
              (stage2AddressWrites store request payment_intent).2.2).1.1),
           (applyAttemptVersioning payment_intent payment_attempt request
              (stage2AddressWrites store request payment_intent).2.2).2) := by
      simp only [confirmStage2, hfound2, hA]
      simp
    refine ⟨heq, ?_⟩
    rw [heq]
    exact applyAttemptVersioning_retains_attempt payment_intent payment_attempt request
      (stage2AddressWrites store request payment_intent).2.2 payment_attempt hmem2

theorem c6_attempt_versioning_dispatch_witness :
    ((confirmStage2 wStore wRequest wMerchant wIntent).2).attempts = wStore.attempts :=
  ((c6_attempt_versioning_dispatch wStore wRequest wMerchant wIntent wAttempt rfl).1 rfl).2

/-- Claim C7 counterexample: a confirm call whose request carries no
return URL, against an intent storing no return URL and a merchant with a
configured default return URL, succeeds with no resolved return URL: the
confirm reconciliation neither falls back to the merchant default nor
fails with the missing-field error, contrary to the claim. -/
theorem c7_counterexample_no_merchant_fallback :
    (getTrackers wStore wCacheMiss "pay_1" wRequest wMerchant wOutcomes).1.map
        (fun pd => pd.payment_intent.return_url) = .ok none
    ∧ wRequest.return_url = none
    ∧ wIntent.return_url = none
    ∧ wMerchant.return_url = some "https://merchant.example/return" := by
  exact ⟨rfl, rfl, rfl, rfl⟩

/-- Claim C7 amended: in the confirm reconciliation the resolved return
URL is the request-supplied return URL when present, else the return URL
stored on the intent, with no merchant-default fallback and no failure
when both are absent; the merchant-default fallback and the
missing-required-field failure belong to the payment-link flow, whose
resolution is the intent-stored value when present, else the merchant
default, else the MissingRequiredField error. -/
theorem c7_amended_return_url_resolution
    (request : PaymentsRequest) (mandate_details : MandateDetails)
    (payment_intent : PaymentIntent) (payment_attempt : PaymentAttempt)
    (shipping_address billing_address : Option Address) (h : HelperOutcomes)
    (out : PaymentIntent × PaymentAttempt × String × Int × Option String)
    (intent_url merchant_url : Option String) :
    (confirmReconcile request mandate_details payment_intent payment_attempt shipping_address
        billing_address h = .ok out →
      out.1.return_url = request.return_url.or payment_intent.return_url)
    ∧ (∀ u, intent_url = some u →
      payment_link_resolve_return_url intent_url merchant_url = .ok u)
    ∧ (intent_url = none → ∀ u, merchant_url = some u →
      payment_link_resolve_return_url intent_url merchant_url = .ok u)
    ∧ (intent_url = none → merchant_url = none →
      payment_link_resolve_return_url intent_url merchant_url
        = .error (.MissingRequiredField "return_url")) := by
  refine ⟨?_, ?_, ?_, ?_⟩
  · intro hok
    simp only [confirmReconcile] at hok
    split at hok
    · exact Except.noConfusion hok
    · split at hok
      · exact Except.noConfusion hok
      · split at hok
        · exact Except.noConfusion hok
        · split at hok
          · exact Except.noConfusion hok
          · injection hok with hX
            subst hX
            simp
  · intro u hu
    subst hu
    rfl
  · intro hi u hu
    subst hi
    subst hu
    rfl
  · intro hi hu
    subst hi
    subst hu
    rfl

theorem c7_amended_return_url_resolution_witness :
    payment_link_resolve_return_url none none
      = .error (.MissingRequiredField "return_url") :=
  ((c7_amended_return_url_resolution wRequest wMandateDetails wIntent wAttempt none none
      wOutcomes (wIntent, wAttempt, "USD", 1000, none) none none).2.2.2) rfl rfl

/-- Claim C8: in the persistence phase the attempt update and the intent
update each fail with the PaymentNotFound-class error when the store
conditional update does not match the targeted row; a no-op task that
always succeeds stands in for the customer update whenever no customer
mutation was requested; and update_trackers succeeds exactly when all
three joined operations succeed, otherwise it returns the first error in
join order. -/
theorem c8_persistence_wave (store : Store) (payment_data : PaymentData)
    (customer : Option Customer) (updated_customer : Option CustomerUpdate)
    (frm_suggestion : Option FrmSuggestion)
    (intent_status : IntentStatus) (attempt_status : AttemptStatus)
    (error_code error_message : Option (Option String))
    (htrans : transition frm_suggestion payment_data.frm_message
      = (intent_status, attempt_status, (error_code, error_message))) :
    (store.attempts.find? (fun a =>
        a.attempt_id == payment_data.payment_attempt.attempt_id
          && a.payment_id == payment_data.payment_attempt.payment_id) = none →
      attemptUpdateResult store payment_data attempt_status error_code error_message
        = .error .PaymentNotFound)
    ∧ (store.intents.find? (fun i =>
        i.payment_id == payment_data.payment_intent.payment_id
          && i.merchant_id == payment_data.payment_intent.merchant_id) = none →
      intentUpdateResult store payment_data intent_status customer
        = .error .PaymentNotFound)
    ∧ (updated_customer = none →
      customerUpdateResult store updated_customer customer = .ok ())
    ∧ ((∃ pd2, (update_trackers store payment_data customer updated_customer
          frm_suggestion).1 = .ok pd2)
      ↔ ((∃ ra, attemptUpdateResult store payment_data attempt_status error_code
            error_message = .ok ra)
        ∧ (∃ ri, intentUpdateResult store payment_data intent_status customer = .ok ri)
        ∧ customerUpdateResult store updated_customer customer = .ok ()))
    ∧ (∀ e, intentUpdateResult store payment_data intent_status customer = .error e →
      (update_trackers store payment_data customer updated_customer frm_suggestion).1
        = .error e)
    ∧ (∀ e ri, intentUpdateResult store payment_data intent_status customer = .ok ri →
      attemptUpdateResult store payment_data attempt_status error_code error_message
        = .error e →
      (update_trackers store payment_data customer updated_customer frm_suggestion).1
        = .error e)
    ∧ (∀ e ri ra, intentUpdateResult store payment_data intent_status customer = .ok ri →
      attemptUpdateResult store payment_data attempt_status error_code error_message
        = .ok ra →
      customerUpdateResult store updated_customer customer = .error e →
      (update_trackers store payment_data customer updated_customer frm_suggestion).1
        = .error e) := by
  refine ⟨?_, ?_, ?_, ?_, ?_, ?_, ?_⟩
  · intro hf
    simp [attemptUpdateResult, update_payment_attempt_with_attempt_id, hf,
      to_not_found_response]
  · intro hf
    simp [intentUpdateResult, update_payment_intent, hf, to_not_found_response]
  · intro hu
    subst hu
    cases customer <;> rfl
  · constructor
    · rintro ⟨pd2, hpd2⟩
      cases hi : intentUpdateResult store payment_data intent_status customer with
      | error e =>
        rw [show (update_trackers store payment_data customer updated_customer
            frm_suggestion).1 = .error e from by
          simp [update_trackers, htrans, hi, tryJoin3]] at hpd2
        exact Except.noConfusion hpd2
      | ok ri =>
        cases ha : attemptUpdateResult store payment_data attempt_status error_code
            error_message with
        | error e =>
          rw [show (update_trackers store payment_data customer updated_customer
              frm_suggestion).1 = .error e from by
            simp [update_trackers, htrans, hi, ha, tryJoin3]] at hpd2
          exact Except.noConfusion hpd2
        | ok ra =>
          cases hc : customerUpdateResult store updated_customer customer with
          | error e =>
            rw [show (update_trackers store payment_data customer updated_customer
                frm_suggestion).1 = .error e from by
              simp [update_trackers, htrans, hi, ha, hc, tryJoin3]] at hpd2
            exact Except.noConfusion hpd2
          | ok u =>
            cases u
            exact ⟨⟨ra, rfl⟩, ⟨ri, rfl⟩, rfl⟩
    · rintro ⟨⟨ra, ha⟩, ⟨ri, hi⟩, hc⟩
      obtain ⟨ri1, ri2⟩ := ri
      obtain ⟨ra1, ra2⟩ := ra
      refine ⟨{ payment_data with payment_intent := ri1, payment_attempt := ra1 }, ?_⟩
      simp [update_trackers, htrans, hi, ha, hc, tryJoin3]
  · intro e hi
    simp [update_trackers, htrans, hi, tryJoin3]
  · intro e ri hi ha
    simp [update_trackers, htrans, hi, ha, tryJoin3]
  · intro e ri ra hi ha hc
    simp [update_trackers, htrans, hi, ha, hc, tryJoin3]

theorem c8_persistence_wave_witness :
    attemptUpdateResult wEmptyStore wPaymentData .Pending none none
      = .error .PaymentNotFound :=
  (c8_persistence_wave wEmptyStore wPaymentData none none none
    .Processing .Pending none none rfl).1 rfl

theorem collectParsed_all_some (dflt : OrderDetailsWithAmount) :
    ∀ l : List SecretValue, (∀ v ∈ l, (v.parsed).isSome = true) →
      collectParsed l = .ok (l.map (fun v => v.parsed.getD dflt)) := by
  intro l
  induction l with
  | nil => intro _; rfl
  | cons v vs ih =>
    intro hall
    have hv := hall v (List.mem_cons_self v vs)
    cases hp : v.parsed with
    | none =>
      rw [hp] at hv
      simp at hv
    | some o =>
      have htail := ih (fun x hx => hall x (List.mem_cons_of_mem v hx))
      simp [collectParsed, parse_value, hp, htail]

theorem collectParsed_has_failure :
    ∀ l : List SecretValue, (∃ v ∈ l, v.parsed = none) →
      collectParsed l = .error (.InvalidDataValue "OrderDetailsWithAmount") := by
  intro l
  induction l with
  | nil =>
    rintro ⟨x, hx, _⟩
    exact absurd hx (List.not_mem_nil x)
  | cons v vs ih =>
    rintro ⟨x, hx, hxp⟩
    rcases List.mem_cons.mp hx with rfl | hx2
    · simp [collectParsed, parse_value, hxp]
    · cases hp : v.parsed with
      | none => simp [collectParsed, parse_value, hp]
      | some o =>
        have htail := ih ⟨x, hx2, hxp⟩
        simp [collectParsed, parse_value, hp, htail]

/-- Claim C10: for an input list in which every element parses as an
order-details-with-amount record, validate_order_details returns the list
in order with each element unchanged except that the product image link
is set to the default exactly on the elements where it was absent; if any
element fails to parse, it fails with the invalid-data-value error; an
absent input list yields an absent output. -/
theorem c10_validate_order_details (dflt : OrderDetailsWithAmount) :
    (validate_order_details none = .ok none)
    ∧ (∀ l, (∀ v ∈ l, (v.parsed).isSome = true) →
      validate_order_details (some l)
        = .ok (some ((l.map (fun v => v.parsed.getD dflt)).map set_default_product_img)))
    ∧ (∀ o : OrderDetailsWithAmount,
        (set_default_product_img o).product_name = o.product_name
      ∧ (set_default_product_img o).quantity = o.quantity
      ∧ (set_default_product_img o).amount = o.amount
      ∧ (o.product_img_link = none →
          (set_default_product_img o).product_img_link = some DEFAULT_PRODUCT_IMG)
      ∧ (∀ u, o.product_img_link = some u →
          (set_default_product_img o).product_img_link = some u))
    ∧ (∀ l, (∃ v ∈ l, v.parsed = none) →
      validate_order_details (some l)
        = .error (.InvalidDataValue "OrderDetailsWithAmount")) := by
  refine ⟨rfl, ?_, ?_, ?_⟩
  · intro l hall
    simp [validate_order_details, collectParsed_all_some dflt l hall]
  · intro o
    cases h : o.product_img_link with
    | none =>
      refine ⟨?_, ?_, ?_, ?_, ?_⟩ <;> simp [set_default_product_img, h]
    | some u0 =>
      refine ⟨?_, ?_, ?_, ?_, ?_⟩ <;> simp [set_default_product_img, h]
  · intro l hfail
    simp [validate_order_details, collectParsed_has_failure l hfail]

def wOrder : OrderDetailsWithAmount :=
  { product_name := "shirt", quantity := 1, amount := 500, product_img_link := none }

theorem c10_validate_order_details_witness :
    validate_order_details (some [{ parsed := some wOrder }])
      = .ok (some [{ wOrder with product_img_link := some DEFAULT_PRODUCT_IMG }]) :=
  (c10_validate_order_details wOrder).2.1 [{ parsed := some wOrder }] (by decide)

end Hyperswitch
